import Mathlib

/-!
Verification of the payload-normalization / WhatsApp-dispatch service
(`main.py`).  The Python module is shallowly embedded: JSON values become
the inductive type `Json`, Python dictionary access and other operations
that can raise become `Except String`-valued functions whose `.error`
constructor models an uncaught Python exception, and pure computations
become plain Lean functions.  JSON numbers are modelled as exact
rationals; binary floating-point artifacts (shortest-roundtrip repr,
inf/nan) are out of scope and no verified property depends on them.
-/

set_option autoImplicit false

/-- An exact rational `num / den`, the model of a Python number (int or
float).  All constructions in this development keep `den` positive. -/
structure Frac where
  num : Int
  den : Nat
  deriving DecidableEq, Repr

/-- The integer `n` as a `Frac`. -/
def Frac.ofInt (n : Int) : Frac := ⟨n, 1⟩

/-- A JSON-like Python value: None, bool, number, str, list, dict.
Dictionaries are association lists with distinct keys (as produced by a
JSON parser); lookup takes the first match. -/
inductive Json where
  | null
  | bool (b : Bool)
  | num (q : Frac)
  | str (s : String)
  | arr (elems : List Json)
  | obj (fields : List (String × Json))

/-- Python truthiness of a JSON-like value (`bool(v)`). -/
def Json.truthy : Json → Bool
  | .null => false
  | .bool b => b
  | .num q => q.num != 0
  | .str s => s ≠ ""
  | .arr l => !l.isEmpty
  | .obj l => !l.isEmpty

/-- Python `x or y` on values: the left operand if truthy, else the right. -/
def pyOr (x y : Json) : Json := if x.truthy then x else y

def Json.isObj : Json → Bool
  | .obj _ => true
  | _ => false

def Json.isArr : Json → Bool
  | .arr _ => true
  | _ => false

def Json.isStr : Json → Bool
  | .str _ => true
  | _ => false

/-- First-match association-list lookup (Python dict lookup). -/
def jlookup : List (String × Json) → String → Option Json
  | [], _ => none
  | (k, v) :: rest, key => if k = key then some v else jlookup rest key

/-- Total variant of `dict.get(k)`: `None` default, `None` on non-dicts.
Used in well-shapedness predicates and specifications. -/
def jget (j : Json) (k : String) : Json :=
  match j with
  | .obj fs => (jlookup fs k).getD .null
  | _ => .null

/-- Total variant of `dict.get(k, d)`. -/
def jgetD (j : Json) (k : String) (d : Json) : Json :=
  match j with
  | .obj fs => (jlookup fs k).getD d
  | _ => d

/-- Python `j.get(k)`: raises `AttributeError` unless `j` is a dict. -/
def Json.dget (j : Json) (k : String) : Except String Json :=
  match j with
  | .obj _ => .ok (jget j k)
  | _ => .error "AttributeError: object has no attribute get"

/-- Python `j.get(k, d)`: raises `AttributeError` unless `j` is a dict. -/
def Json.dgetD (j : Json) (k : String) (d : Json) : Except String Json :=
  match j with
  | .obj _ => .ok (jgetD j k d)
  | _ => .error "AttributeError: object has no attribute get"

/-- Python `j[0]` (used on the line-items value): first element of a list,
first character of a string, otherwise a `TypeError`/`KeyError`;
`IndexError` on an empty list or string. -/
def Json.idx0 : Json → Except String Json
  | .arr (x :: _) => .ok x
  | .arr [] => .error "IndexError: list index out of range"
  | .str s =>
    match s.data with
    | c :: _ => .ok (.str (String.mk [c]))
    | [] => .error "IndexError: string index out of range"
  | _ => .error "TypeError: object is not subscriptable"

/-- ASCII lower-casing of a string (`str.lower`; the payloads under
verification are ASCII where case matters). -/
def strLower (s : String) : String := String.mk (s.data.map Char.toLower)

/-- Python `v.lower()` where `v` must be a string. -/
def pyLower : Json → Except String String
  | .str s => .ok (strLower s)
  | _ => .error "AttributeError: object has no attribute lower"

/-- Decimal digit characters of a natural number, most significant first.
The first argument is recursion fuel (any value above the digit count works). -/
def natDigitsAux : Nat → Nat → List Char
  | 0, _ => []
  | fuel + 1, n => if n < 10 then [Nat.digitChar n] else natDigitsAux fuel (n / 10) ++ [Nat.digitChar (n % 10)]

def natStr (n : Nat) : String := String.mk (natDigitsAux (n + 1) n)

def intStr (i : Int) : String := (if i < 0 then "-" else "") ++ natStr i.natAbs

/-- Rendering of a rational as Python would render the number it models.
Exact only for integers (`str(97)`); the fractional case is a placeholder:
no verified property depends on the textual form of a non-integral number. -/
def ratStr (q : Frac) : String :=
  if q.den = 1 then intStr q.num else intStr q.num ++ "/" ++ natStr q.den

/-- Python `str(v)` for the scalar shapes that reach string conversion in
the program.  The list/dict renderings are placeholders: no verified
property depends on them. -/
def pyStr : Json → String
  | .null => "None"
  | .bool b => if b then "True" else "False"
  | .num q => ratStr q
  | .str s => s
  | .arr _ => "[...]"
  | .obj _ => "\x7b...\x7d"

/-- Python `str.strip()`: drop whitespace from both ends. -/
def pyStrip (s : String) : String :=
  String.mk (((s.data.dropWhile Char.isWhitespace).reverse.dropWhile Char.isWhitespace).reverse)

/-- Helper for `str.split()` with no separator: accumulates the current
word (reversed) and splits on runs of whitespace. -/
def splitWSAux : List Char → List Char → List String
  | [], cur => if cur.isEmpty then [] else [String.mk cur.reverse]
  | c :: rest, cur =>
    if c.isWhitespace then
      if cur.isEmpty then splitWSAux rest [] else String.mk cur.reverse :: splitWSAux rest []
    else splitWSAux rest (c :: cur)

/-- Python `s.split()` (whitespace split, empty words dropped). -/
def pySplit (s : String) : List String := splitWSAux s.data []

/-- Python `v.split()[0]` where `v` must be a string with at least one
word; raises `AttributeError`/`IndexError` otherwise. -/
def pySplitHead : Json → Except String String
  | .str s =>
    match pySplit s with
    | [] => .error "IndexError: list index out of range"
    | h :: _ => .ok h
  | _ => .error "AttributeError: object has no attribute split"

/-! ### Environment defaults

The deployed configuration is read from environment variables at process
start; the embedding fixes them at the documented defaults (the values
used when no override is configured). -/

def UAZAPI_BASE_URL : String := "https://free.uazapi.com"

def SENDER_NAME : String := "Paginatto"

def MSG_TEMPLATE : String :=
  "Te achei {first_name}! Você deixou {product} no carrinho por {price}.\nFinalize aqui: {checkout_url}\n— {brand}"

/-! ### `normalize_phone` -/

/-- Does the digit list start with the country prefix 55? -/
def startsWith55 : List Char → Bool
  | '5' :: '5' :: _ => true
  | _ => false

/-- `normalize_phone` from `main.py`: falsy input rejected; non-digits
stripped; empty rejected; a digit string starting with 55 accepted as is;
at least 10 digits accepted with 55 prepended; otherwise rejected.
`Char.isDigit` covers the ASCII digits; the Unicode digit classes that
Python `str.isdigit` additionally accepts are out of scope. -/
def normalize_phone (raw : Json) : Option String :=
  if !raw.truthy then none
  else
    let digits := (pyStr raw).data.filter Char.isDigit
    if digits.isEmpty then none
    else if startsWith55 digits then some (String.mk digits)
    else if 10 ≤ digits.length then some ("55" ++ String.mk digits)
    else none

/-! ### `currency_brl` -/

/-- Numeric value of a list of decimal digit characters. -/
def digitsVal (l : List Char) : Nat := l.foldl (fun a c => a * 10 + (c.toNat - 48)) 0

/-- Decimal-literal parsing as done by Python `float(str)`: optional
surrounding whitespace, optional sign, digits with an optional decimal
point, optional decimal exponent.  The special forms `inf`/`nan` and
underscore separators are not representable here and are out of scope. -/
def parseFloat (s : String) : Option Frac :=
  let l := (s.data.dropWhile Char.isWhitespace).reverse.dropWhile Char.isWhitespace |>.reverse
  let (sgn, l) : Int × List Char :=
    match l with
    | '+' :: t => (1, t)
    | '-' :: t => (-1, t)
    | t => (1, t)
  let ip := l.takeWhile Char.isDigit
  let l := l.dropWhile Char.isDigit
  let (fp, l) : List Char × List Char :=
    match l with
    | '.' :: t => (t.takeWhile Char.isDigit, t.dropWhile Char.isDigit)
    | t => ([], t)
  if ip.isEmpty ∧ fp.isEmpty then none
  else
    let base : Frac := ⟨sgn * (digitsVal ip * 10 ^ fp.length + digitsVal fp), 10 ^ fp.length⟩
    match l with
    | [] => some base
    | 'e' :: t => parseExp base t
    | 'E' :: t => parseExp base t
    | _ => none
where
  parseExp (base : Frac) (t : List Char) : Option Frac :=
    let (esgn, t) : Bool × List Char :=
      match t with
      | '+' :: r => (false, r)
      | '-' :: r => (true, r)
      | r => (false, r)
    if t.isEmpty ∨ ¬ t.all Char.isDigit then none
    else
      let e : Nat := digitsVal t
      some (if esgn then ⟨base.num, base.den * 10 ^ e⟩ else ⟨base.num * 10 ^ e, base.den⟩)

/-- Python `float(v)` on a JSON-like value, `none` modelling the raised
`TypeError`/`ValueError` that `currency_brl` catches. -/
def pyFloat : Json → Option Frac
  | .num q => some q
  | .bool b => some (if b then Frac.ofInt 1 else Frac.ofInt 0)
  | .str s => parseFloat s
  | _ => none

/-- The integer number of cents of `q`, rounding ties to even (the
rounding of `format(v, ".2f")`, taken on the exact rational value). -/
def centsRHE (q : Frac) : Int :=
  let n := q.num * 100
  let d : Int := q.den
  let f := Int.fdiv n d
  let r := n - f * d
  if 2 * r < d then f
  else if d < 2 * r then f + 1
  else if f % 2 = 0 then f else f + 1

/-- Group the decimal digits of a reversed digit list with a comma every
three digits (the `,` option of Python format). -/
def group3Rev : List Char → List Char
  | a :: b :: c :: d :: rest => a :: b :: c :: ',' :: group3Rev (d :: rest)
  | l => l

def groupNat (n : Nat) : String := String.mk (group3Rev (natStr n).data.reverse).reverse

def twoDig (n : Nat) : String := (if n < 10 then "0" else "") ++ natStr n

/-- Python `f"{v:,.2f}"` on the exact rational `v`: sign, thousands
separators, exactly two decimals. -/
def usFormat (q : Frac) : String :=
  let cents := centsRHE q
  let a := cents.natAbs
  (if q.num < 0 then "-" else "") ++ groupNat (a / 100) ++ "." ++ twoDig (a % 100)

/-- Single-character `str.replace` (every pattern in the source is a
single character). -/
def chReplace (a b : Char) (l : List Char) : List Char :=
  l.map fun c => if c = a then b else c

/-- The Brazilian rendering produced by the replace chain
`,→X`, `.→,`, `X→.` applied to `"R$ " + f"{v:,.2f}"`. -/
def brlFromRat (q : Frac) : String :=
  String.mk (chReplace 'X' '.' (chReplace '.' ',' (chReplace ',' 'X' ("R$ " ++ usFormat q).data)))

/-- `currency_brl` from `main.py`: `float(value)` under `try`, formatted
Brazilian-style; any conversion failure yields the default. -/
def currency_brl (value : Json) : String :=
  match pyFloat value with
  | some q => brlFromRat q
  | none => "R$ 0,00"

/-! ### Payload extraction (`_coalesce`, `_product_from_item`,
`_price_from_item_or_totals`, `resolve_checkout_url`, the parsers)

The parsers run in `Except String`: an `.error` models an uncaught
Python exception (`AttributeError`, `TypeError`, `IndexError`).  The
operands of a Python `x or y` over two lookups on the same receiver are
fetched eagerly here where Python short-circuits; this is observationally
equivalent because both lookups raise under exactly the same condition
(the receiver not being a dict), which already failed the first lookup. -/

/-- Membership of `v` in `(None, "", [], {})`, the exclusion test of
`_coalesce` (Python `in` compares with `==`; numbers and booleans never
equal these four values except `0 == False`, neither of which is in the
tuple). -/
def isEmptyVal : Json → Bool
  | .null => true
  | .str s => s = ""
  | .arr l => l.isEmpty
  | .obj l => l.isEmpty
  | _ => false

/-- `_coalesce` from `main.py`: the first value that is not None, not an
empty string and not an empty collection; `null` models the `None`
returned when every candidate is excluded. -/
def pyCoalesce : List Json → Json
  | [] => .null
  | v :: rest => if isEmptyVal v then pyCoalesce rest else v

/-- Membership of `raw` in `(None, "", 0)` as tested by
`_price_from_item_or_totals` (again by `==`, so `0`, `0.0` and `False`
all match the `0` entry). -/
def isNoneEmptyZero : Json → Bool
  | .null => true
  | .str s => s = ""
  | .num q => q.num = 0
  | .bool b => !b
  | _ => false

/-- The generator `" ".join(t for t in l if t)`: truthy entries must be
strings (a truthy non-string raises `TypeError` in `str.join`). -/
def joinFilter : List Json → Except String (List String)
  | [] => .ok []
  | j :: rest =>
    if j.truthy then
      match j with
      | .str s => do
        let r ← joinFilter rest
        .ok (s :: r)
      | _ => .error "TypeError: sequence item: expected str instance"
    else joinFilter rest

def strJoinSpace : List String → String
  | [] => ""
  | [s] => s
  | s :: rest => s ++ " " ++ strJoinSpace rest

/-- `_product_from_item` from `main.py`. -/
def _product_from_item (item : Json) : Except String Json := do
  let v ← item.dget "variant"
  let variant := pyOr v (.obj [])
  let p1 ← item.dget "product"
  let p2 ← variant.dget "product"
  let prodObj := pyOr p1 (pyOr p2 (.obj []))
  let nm ← item.dget "name"
  let ti ← item.dget "title"
  let pt ← prodObj.dget "title"
  let vt ← item.dget "variant_title"
  let vt2 ← variant.dget "title"
  let parts ← joinFilter [ti, pyOr vt vt2]
  let title := pyCoalesce [nm, ti, pt, .str (strJoinSpace parts)]
  pure (pyOr title (.str "Seu produto"))

/-- `_price_from_item_or_totals` from `main.py` (the totals list is
evaluated by the caller, as in the source). -/
def _price_from_item_or_totals (item : Json) (totals : List Json) : Except String String := do
  let p1 ← item.dget "price"
  let p2 ← item.dget "unit_price"
  let p3 ← item.dget "line_price"
  let p4 ← item.dget "subtotal"
  let p5 ← item.dget "total"
  let raw := pyCoalesce [p1, p2, p3, p4, p5]
  let raw := if isNoneEmptyZero raw then pyCoalesce totals else raw
  pure (currency_brl raw)

/-- The candidate checkout-URL keys, in priority order. -/
def urlKeys : List String := ["checkout_link", "checkout_url", "cart_url", "recovery_url", "recover_url", "abandoned_checkout_url"]

/-- The `for k in keys: if d.get(k): return d[k]` loop body on the fields
of a dict. -/
def firstTruthyKey (fs : List (String × Json)) : List String → Option Json
  | [] => none
  | k :: rest =>
    let v := (jlookup fs k).getD .null
    if v.truthy then some v else firstTruthyKey fs rest

/-- `resolve_checkout_url` from `main.py` (the second parameter is named
`scoped` in the source, a reserved word here). -/
def resolve_checkout_url (payload scope : Json) : Except String Json := do
  let s := pyOr scope (.obj [])
  let r1 ← match s with
    | .obj fs => Except.ok (firstTruthyKey fs urlKeys)
    | _ => Except.error "AttributeError: object has no attribute get"
  match r1 with
  | some v => pure v
  | none => do
    let r2 ← match payload with
      | .obj fs => Except.ok (firstTruthyKey fs urlKeys)
      | _ => Except.error "AttributeError: object has no attribute get"
    match r2 with
    | some v => pure v
    | none => do
      let d ← payload.dget "data"
      if d.truthy then
        match d with
        | .obj fs => pure ((firstTruthyKey fs urlKeys).getD (.str ""))
        | _ => Except.error "AttributeError: object has no attribute get"
      else pure (.str "")

/-- The canonical record returned by the parsers (the Python dict with
keys order_id/event/name/first_name/phone/product/price/checkout_url/
cart_url).  `price` is always a string because `currency_brl` returns
one; the other non-String fields carry whatever JSON value the source
dict holds. -/
structure CanonRecord where
  order_id : Json
  event : Json
  name : Json
  first_name : Json
  phone : Json
  product : Json
  price : String
  checkout_url : Json
  cart_url : Json

/-- The f-string `f"{cust.get('first_name','')} {cust.get('last_name','')}".strip()`. -/
def concatName (fi la : Json) : String := pyStrip (pyStr fi ++ " " ++ pyStr la)

/-- The expression
`cust.get("first_name") or (name.split()[0] if name else "cliente")`
shared by both parsers (`fi` is the first-name value, `name` the resolved
name). -/
def firstNameOf (fi name : Json) : Except String Json :=
  if fi.truthy then pure fi
  else if name.truthy then do
    let h ← pySplitHead name
    pure (Json.str h)
  else pure (Json.str "cliente")

/-- The expression `(items[0] or {}) if items else {}` of
`parse_abandoned_payload`. -/
def firstOfA (items : Json) : Except String Json :=
  if items.truthy then do
    let e ← items.idx0
    pure (pyOr e (.obj []))
  else pure (Json.obj [])

/-- The expression `items[0] or {}` of `parse_order_payload`. -/
def firstOfO (items : Json) : Except String Json := do
  let e ← items.idx0
  pure (pyOr e (.obj []))

/-- `parse_abandoned_payload` from `main.py`. -/
def parse_abandoned_payload (payload : Json) : Except String CanonRecord := do
  let dataRaw ← payload.dgetD "data" (.obj [])
  let data := pyOr dataRaw (.obj [])
  let c1 ← data.dget "customer"
  let c2 ← data.dget "customer_info"
  let cust := pyOr c1 (pyOr c2 (.obj []))
  let i1 ← data.dget "cart_line_items"
  let i2 ← data.dget "line_items"
  let i3 ← data.dget "items"
  let items := pyOr i1 (pyOr i2 (pyOr i3 (.arr [])))
  let fullName ← cust.dget "full_name"
  let fiD ← cust.dgetD "first_name" (.str "")
  let laD ← cust.dgetD "last_name" (.str "")
  let name := pyOr fullName (pyOr (.str (concatName fiD laD)) (.str "cliente"))
  let fi ← cust.dget "first_name"
  let firstName ← firstNameOf fi name
  let first ← firstOfA items
  let product ← _product_from_item first
  let t1 ← data.dget "total_line_items_price"
  let t2 ← data.dget "subtotal_price"
  let t3 ← data.dget "total_price"
  let price ← _price_from_item_or_totals first [t1, t2, t3]
  let checkoutUrl ← resolve_checkout_url payload data
  let orderId ← data.dget "id"
  let ev ← payload.dget "event"
  let phone ← cust.dget "phone"
  pure { order_id := orderId, event := pyOr ev (.str "checkout.abandoned"), name := name,
         first_name := firstName, phone := phone, product := product, price := price,
         checkout_url := checkoutUrl, cart_url := checkoutUrl }

/-- `parse_order_payload` from `main.py`. -/
def parse_order_payload (payload : Json) : Except String CanonRecord := do
  let orderRaw ← payload.dgetD "order" (.obj [])
  let order := pyOr orderRaw (.obj [])
  let custRaw ← order.dgetD "customer" (.obj [])
  let customer := pyOr custRaw (.obj [])
  let i1 ← order.dget "line_items"
  let i2 ← order.dget "items"
  let items := pyOr i1 (pyOr i2 (.arr [.obj []]))
  let cname ← customer.dget "name"
  let fullName ← customer.dget "full_name"
  let fiD ← customer.dgetD "first_name" (.str "")
  let laD ← customer.dgetD "last_name" (.str "")
  let name := pyOr cname (pyOr fullName (pyOr (.str (concatName fiD laD)) (.str "cliente")))
  let fi ← customer.dget "first_name"
  let firstName ← firstNameOf fi name
  let first ← firstOfO items
  let product ← _product_from_item first
  let t1 ← order.dget "total_line_items_price"
  let t2 ← order.dget "subtotal_price"
  let t3 ← order.dget "total_price"
  let t4 ← order.dget "unformatted_total_price"
  let price ← _price_from_item_or_totals first [t1, t2, t3, t4]
  let checkoutUrl ← resolve_checkout_url payload order
  let orderId ← order.dget "id"
  let ev ← payload.dget "event"
  let st ← order.dget "status"
  let phone ← customer.dget "phone"
  pure { order_id := orderId, event := pyOr ev (pyOr st (.str "order.updated")), name := name,
         first_name := firstName, phone := phone, product := product, price := price,
         checkout_url := checkoutUrl, cart_url := checkoutUrl }

/-- Substring test, `needle in hay` on Python strings, via a prefix scan. -/
def listPrefixB : List Char → List Char → Bool
  | [], _ => true
  | _ :: _, [] => false
  | a :: as, b :: bs => a = b && listPrefixB as bs

def listInfixB (n : List Char) : List Char → Bool
  | [] => listPrefixB n []
  | h :: t => listPrefixB n (h :: t) || listInfixB n t

def strContains (hay needle : String) : Bool := listInfixB needle.data hay.data

/-- Python `k in payload` on a dict. -/
def hasKey (j : Json) (k : String) : Bool :=
  match j with
  | .obj fs => (jlookup fs k).isSome
  | _ => false

/-- `parse_cartpanda_payload` from `main.py` (the final two branches of
the source both call `parse_order_payload`; they are kept separate to
mirror the control flow). -/
def parse_cartpanda_payload (payload : Json) : Except String CanonRecord := do
  let evRaw ← payload.dget "event"
  let event ← pyLower (pyOr evRaw (.str ""))
  if strContains event "abandoned" || (hasKey payload "data" && (jget payload "data").truthy) then
    parse_abandoned_payload payload
  else if hasKey payload "order" then
    parse_order_payload payload
  else
    parse_order_payload payload

/-! ### `safe_format` (CPython `str.format_map` with a `_SafeDict`)

The embedding covers the format-string grammar as far as the program can
reach it with a mapping whose values are strings: literal text, doubled
brace escapes, and named replacement fields.  An unterminated or
unmatched brace is a `ValueError` exactly as in CPython.  Empty or
all-digit field names request positional arguments, which `format_map`
does not supply, so they raise (`IndexError`); fields using attribute or
index access, a conversion or a format spec are modelled conservatively
as errors — none of them can appear in a rendering the verified
properties depend on, and `_SafeDict.__missing__` does not protect them
in CPython either. -/

def obraceC : Char := Char.ofNat 123

def cbraceC : Char := Char.ofNat 125

/-- Split at the first closing brace: the field text and the remainder. -/
def splitAtCbrace : List Char → Option (List Char × List Char)
  | [] => none
  | c :: rest =>
    if c = cbraceC then some ([], rest)
    else
      match splitAtCbrace rest with
      | none => none
      | some (f, r) => some (c :: f, r)

theorem splitAtCbrace_length (l : List Char) : ∀ f r, splitAtCbrace l = some (f, r) → r.length < l.length := by
  induction l with
  | nil => simp [splitAtCbrace]
  | cons c rest ih =>
    intro f r h
    by_cases hc : c = cbraceC
    · simp [splitAtCbrace, hc] at h
      obtain ⟨h1, h2⟩ := h
      subst h2
      simp
    · simp only [splitAtCbrace, hc, if_false] at h
      rcases hs : splitAtCbrace rest with _ | ⟨f2, r2⟩
      · rw [hs] at h
        simp at h
      · rw [hs] at h
        simp at h
        obtain ⟨h1, h2⟩ := h
        subst h2
        have h3 := ih f2 r2 hs
        simp only [List.length_cons]
        omega

/-- A simple named field: looked up as a keyword in the mapping, where
`_SafeDict` substitutes the empty string for a missing key.  Empty and
all-digit names are positional and raise instead. -/
def isSimpleName (name : List Char) : Bool :=
  !name.isEmpty && !name.contains '.' && !name.contains '[' && !(name.all Char.isDigit)

/-- Evaluate one replacement field against the mapping. -/
def evalField (m : String → Option String) (field : List Char) : Except String String :=
  let name := field.takeWhile fun c => c ≠ '!' && c ≠ ':'
  if name.length = field.length then
    if isSimpleName name then .ok ((m (String.mk name)).getD "")
    else .error "IndexError: replacement index out of range"
  else .error "conversion or format spec: not modelled, unreached by the program"

/-- The `str.format_map` scan over the character list of the template.
The first argument is recursion fuel; each step consumes at least one
character, so any fuel above the length of the remaining text never runs
out (`safe_format` supplies length + 1, and `formatMapF_toks` below shows
the bound suffices on the templates the program renders). -/
def formatMapF (m : String → Option String) : Nat → List Char → Except String String
  | 0, _ => .error "recursion fuel exhausted (never reached from safe_format)"
  | _ + 1, [] => .ok ""
  | fuel + 1, c :: rest =>
    if c = obraceC then
      match rest with
      | [] => .error "ValueError: single opening brace encountered in format string"
      | c2 :: rest2 =>
        if c2 = obraceC then
          match formatMapF m fuel rest2 with
          | .ok t => .ok (String.singleton obraceC ++ t)
          | .error e => .error e
        else
          match splitAtCbrace (c2 :: rest2) with
          | none => .error "ValueError: expected closing brace before end of string"
          | some (field, restp) =>
            match evalField m field with
            | .ok v =>
              match formatMapF m fuel restp with
              | .ok t => .ok (v ++ t)
              | .error e => .error e
            | .error e => .error e
    else if c = cbraceC then
      match rest with
      | c2 :: rest2 =>
        if c2 = cbraceC then
          match formatMapF m fuel rest2 with
          | .ok t => .ok (String.singleton cbraceC ++ t)
          | .error e => .error e
        else .error "ValueError: single closing brace encountered in format string"
      | [] => .error "ValueError: single closing brace encountered in format string"
    else
      match formatMapF m fuel rest with
      | .ok t => .ok (String.singleton c ++ t)
      | .error e => .error e

/-- `safe_format` from `main.py`: `(template or "").format_map(_SafeDict(data))`. -/
def safe_format (template : Option String) (data : String → Option String) : Except String String :=
  formatMapF data ((template.getD "").data.length + 1) (template.getD "").data

/-- Abstract well-formed template tokens: literal characters, doubled
brace escapes, and simple named placeholders. -/
inductive Tok where
  | lit (c : Char)
  | escOpen
  | escClose
  | ph (name : String)

/-- Validity of a token: a literal is not a brace; a placeholder name is
a simple name containing no brace, conversion or spec markers. -/
def Tok.valid : Tok → Bool
  | .lit c => c ≠ obraceC && c ≠ cbraceC
  | .escOpen => true
  | .escClose => true
  | .ph n => isSimpleName n.data && n.data.all fun c => c ≠ obraceC && c ≠ cbraceC && c ≠ '!' && c ≠ ':'

/-- Serialize tokens back to template text. -/
def renderToks : List Tok → List Char
  | [] => []
  | .lit c :: ts => c :: renderToks ts
  | .escOpen :: ts => obraceC :: obraceC :: renderToks ts
  | .escClose :: ts => cbraceC :: cbraceC :: renderToks ts
  | .ph n :: ts => obraceC :: (n.data ++ cbraceC :: renderToks ts)

/-- The intended substitution semantics: placeholders missing from the
mapping become the empty string. -/
def substToks (m : String → Option String) : List Tok → String
  | [] => ""
  | .lit c :: ts => String.singleton c ++ substToks m ts
  | .escOpen :: ts => String.singleton obraceC ++ substToks m ts
  | .escClose :: ts => String.singleton cbraceC ++ substToks m ts
  | .ph n :: ts => (m n).getD "" ++ substToks m ts

/-! ### UAZAPI delivery client (`_candidate_requests`, `uazapi_send_text`)

The HTTP transport is the oracle parameter: for each candidate request it
returns either a response (status and body text) or a raised transport
exception. -/

/-- A candidate request: path, headers, JSON body (all field values in
the bodies built by the source are the phone and message strings). -/
structure Attempt where
  path : String
  headers : List (String × String)
  body : List (String × String)

/-- The outcome of one `client.post`. -/
inductive PostResult where
  | resp (status : Nat) (text : String)
  | exn (msg : String)

/-- `_candidate_requests` from `main.py`: the path × auth-header × body
cross product, paths outermost. -/
def _candidate_requests (token phone message : String) : List Attempt :=
  let auth_headers : List (List (String × String)) :=
    [[("Authorization", "Bearer " ++ token), ("Content-Type", "application/json")],
     [("Authorization", token), ("Content-Type", "application/json")],
     [("token", token), ("Content-Type", "application/json")],
     [("Token", token), ("Content-Type", "application/json")]]
  let payloads : List (List (String × String)) :=
    [[("number", phone), ("text", message)],
     [("phone", phone), ("message", message)],
     [("to", phone), ("text", message)],
     [("to", phone), ("message", message)]]
  let paths : List String :=
    ["/message/sendText", "/message/send", "/sendText", "/send/text", "/api/message/sendText", "/api/message/send"]
  paths.flatMap fun p => auth_headers.flatMap fun h => payloads.map fun b => ⟨p, h, b⟩

def attemptUrl (a : Attempt) : String := UAZAPI_BASE_URL ++ a.path

/-- The dict kept in `last` for a 404/405 response or a transport error. -/
def inconclusiveJson (a : Attempt) : PostResult → Json
  | .resp st text => .obj [("status", .num (Frac.ofInt st)), ("body", .str text), ("url", .str (attemptUrl a))]
  | .exn msg => .obj [("status", .str "error"), ("body", .str msg), ("url", .str (attemptUrl a))]

/-- The dict returned for any other response status. -/
def conclusiveJson (a : Attempt) (st : Nat) (text : String) : Json :=
  .obj [("status", .num (Frac.ofInt st)), ("body", .str text), ("url", .str (attemptUrl a)),
        ("payload", .obj (a.body.map fun kv => (kv.1, Json.str kv.2))),
        ("headers_used", .arr (a.headers.map fun kv => Json.str kv.1))]

/-- Is this attempt outcome inconclusive (route not found / method not
allowed / transport error), so that probing continues? -/
def inconclusiveB : PostResult → Bool
  | .resp st _ => st = 404 || st = 405
  | .exn _ => true

/-- The probing loop of `uazapi_send_text`: `last` accumulates the most
recent inconclusive outcome. -/
def probeLoop (oracle : Attempt → PostResult) : List Attempt → Option Json → Json
  | [], last => last.getD (.obj [("status", .str "error"), ("body", .str "no_attempts")])
  | a :: rest, _last =>
    match oracle a with
    | .resp st text =>
      if st = 404 || st = 405 then probeLoop oracle rest (some (inconclusiveJson a (.resp st text)))
      else conclusiveJson a st text
    | .exn msg => probeLoop oracle rest (some (inconclusiveJson a (.exn msg)))

/-- `uazapi_send_text` from `main.py`, with the configured token as a
parameter and the transport as an oracle. -/
def uazapi_send_text (token phone message : String) (oracle : Attempt → PostResult) : Json :=
  if token = "" then .obj [("status", .str "error"), ("body", .str "missing_env:UAZAPI_TOKEN")]
  else probeLoop oracle (_candidate_requests token phone message) none

/-! ### Webhook handler (`cartpanda_webhook`)

The delivery call is abstracted as `send : phone → message → Json`
(the structured result of `uazapi_send_text`); the handler builds the
JSON response bodies of the source. -/

def ignoredJson (event : String) (orderId : Json) : Json :=
  .obj [("ok", .bool true), ("action", .str "ignored"), ("event", .str event), ("order_id", orderId)]

def invalidPhoneJson (orderId : Json) : Json :=
  .obj [("ok", .bool false), ("error", .str "telefone inválido"), ("order_id", orderId)]

def attemptedJson (orderId result : Json) : Json :=
  .obj [("ok", .bool true), ("action", .str "whatsapp_attempted"), ("order_id", orderId),
        ("provider", .str "uazapi"), ("result", result)]

/-- The template data dict built by the handler.  Its Python values are
the record fields (stringified on substitution) plus the brand name. -/
def webhookData (info : CanonRecord) : String → Option String := fun k =>
  if k = "name" then some (pyStr info.name)
  else if k = "first_name" then some (pyStr info.first_name)
  else if k = "product" then some (pyStr info.product)
  else if k = "price" then some info.price
  else if k = "checkout_url" then some (pyStr info.checkout_url)
  else if k = "cart_url" then some (pyStr info.cart_url)
  else if k = "brand" then some SENDER_NAME
  else none

/-- `cartpanda_webhook` from `main.py` (logging omitted). -/
def cartpanda_webhook (payload : Json) (send : String → String → Json) : Except String Json := do
  let info ← parse_cartpanda_payload payload
  let evRaw ← payload.dget "event"
  let event ← pyLower (pyOr evRaw (pyOr info.event (.str "")))
  if !strContains event "abandoned" && !strContains event "checkout.abandoned" then
    pure (ignoredJson event info.order_id)
  else
    match normalize_phone info.phone with
    | none => pure (invalidPhoneJson info.order_id)
    | some phoneNorm => do
      let message ← safe_format (some MSG_TEMPLATE) (webhookData info)
      pure (attemptedJson info.order_id (send phoneNorm message))

/-! ### Supporting lemmas -/

@[simp] theorem ok_bind {α β : Type} (a : α) (f : α → Except String β) :
    (Except.ok a >>= f) = f a := rfl

@[simp] theorem error_bind {α β : Type} (e : String) (f : α → Except String β) :
    ((Except.error e : Except String α) >>= f) = .error e := rfl

theorem except_bind_ok {α β : Type} {x : Except String α} {f : α → Except String β} {b : β}
    (h : x >>= f = .ok b) : ∃ a, x = .ok a ∧ f a = .ok b := by
  cases x with
  | ok a => exact ⟨a, rfl, h⟩
  | error e => simp at h

theorem truthy_ne_null {a : Json} (h : a.truthy = true) : a ≠ .null := by
  intro he
  subst he
  simp [Json.truthy] at h

theorem pyOr_ne_null {a b : Json} (hb : b ≠ .null) : pyOr a b ≠ .null := by
  unfold pyOr
  split
  · exact truthy_ne_null (by assumption)
  · exact hb

theorem pyOr_truthy {a b : Json} (hb : b.truthy = true) : (pyOr a b).truthy = true := by
  unfold pyOr
  split
  · assumption
  · exact hb

theorem dget_obj {j : Json} (h : j.isObj = true) (k : String) : j.dget k = .ok (jget j k) := by
  cases j
  case obj fs => rfl
  all_goals simp [Json.isObj] at h

theorem dgetD_obj {j : Json} (h : j.isObj = true) (k : String) (d : Json) :
    j.dgetD k d = .ok (jgetD j k d) := by
  cases j
  case obj fs => rfl
  all_goals simp [Json.isObj] at h

theorem listPrefixB_iff (n : List Char) : ∀ l, listPrefixB n l = true ↔ n <+: l := by
  induction n with
  | nil => intro l; simp [listPrefixB]
  | cons a as ih =>
    intro l
    cases l with
    | nil => simp [listPrefixB, List.prefix_nil]
    | cons b bs => simp [listPrefixB, List.cons_prefix_cons, ih]

theorem listInfixB_iff (n : List Char) : ∀ l, listInfixB n l = true ↔ n <:+: l := by
  intro l
  induction l with
  | nil =>
    simp [listInfixB, listPrefixB_iff, List.prefix_nil, List.infix_nil]
  | cons h t ih => simp [listInfixB, listPrefixB_iff, List.infix_cons_iff, ih]

/-- `"checkout.abandoned" in ev` implies `"abandoned" in ev`: the second
conjunct of the ignore test in the handler is subsumed by the first. -/
theorem strContains_abandoned_of_checkout {ev : String}
    (h : strContains ev "checkout.abandoned" = true) : strContains ev "abandoned" = true := by
  rw [strContains, listInfixB_iff] at h ⊢
  exact List.IsInfix.trans (by decide) h

theorem takeWhile_all {p : Char → Bool} : ∀ l : List Char, (∀ c ∈ l, p c = true) → l.takeWhile p = l := by
  intro l h
  induction l with
  | nil => rfl
  | cons c rest ih =>
    simp only [List.takeWhile_cons]
    rw [h c (List.mem_cons_self c rest)]
    simp [ih fun x hx => h x (List.mem_cons_of_mem c hx)]

theorem splitAtCbrace_append (xs rest : List Char) (h : ∀ c ∈ xs, c ≠ cbraceC) :
    splitAtCbrace (xs ++ cbraceC :: rest) = some (xs, rest) := by
  induction xs with
  | nil => simp [splitAtCbrace]
  | cons a as ih =>
    have ha : a ≠ cbraceC := h a (List.mem_cons_self a as)
    simp only [List.cons_append, splitAtCbrace, ha, if_false, List.append_eq]
    rw [ih fun x hx => h x (List.mem_cons_of_mem a hx)]

theorem string_mk_data (s : String) : String.mk s.data = s := rfl

/-- Rendering a list of valid tokens never fails and substitutes the
empty string for any placeholder missing from the mapping. -/
theorem formatMapF_toks (m : String → Option String) :
    ∀ (ts : List Tok) (fuel : Nat), (∀ t ∈ ts, t.valid = true) →
      (renderToks ts).length < fuel →
      formatMapF m fuel (renderToks ts) = .ok (substToks m ts) := by
  intro ts
  induction ts with
  | nil =>
    intro fuel _ hf
    match fuel, hf with
    | f + 1, _ => rfl
  | cons t ts ih =>
    intro fuel hv hf
    have hts : ∀ x ∈ ts, x.valid = true := fun x hx => hv x (List.mem_cons_of_mem t hx)
    have ht : t.valid = true := hv t (List.mem_cons_self t ts)
    cases t with
    | lit c =>
      simp only [Tok.valid, Bool.and_eq_true, decide_eq_true_eq] at ht
      obtain ⟨h1, h2⟩ := ht
      simp only [renderToks, List.length_cons] at hf ⊢
      match fuel, hf with
      | f + 1, hf =>
        simp only [formatMapF, if_neg h1, if_neg h2]
        rw [ih f hts (by omega)]
        simp [substToks]
    | escOpen =>
      simp only [renderToks, List.length_cons] at hf ⊢
      match fuel, hf with
      | f + 1, hf =>
        simp only [formatMapF, if_pos rfl]
        rw [ih f hts (by omega)]
        simp [substToks]
    | escClose =>
      simp only [renderToks, List.length_cons] at hf ⊢
      match fuel, hf with
      | f + 1, hf =>
        have hne : cbraceC ≠ obraceC := by decide
        simp only [formatMapF, if_neg hne, if_pos rfl]
        rw [ih f hts (by omega)]
        simp [substToks]
    | ph n =>
      simp only [Tok.valid, Bool.and_eq_true] at ht
      obtain ⟨hsimple, hall⟩ := ht
      have hchars : ∀ c ∈ n.data, c ≠ obraceC ∧ c ≠ cbraceC ∧ c ≠ '!' ∧ c ≠ ':' := by
        intro c hc
        have := (List.all_eq_true.mp hall) c hc
        simp only [Bool.and_eq_true, decide_eq_true_eq] at this
        exact ⟨this.1.1.1, this.1.1.2, this.1.2, this.2⟩
      cases hd : n.data with
      | nil => rw [hd] at hsimple; simp [isSimpleName] at hsimple
      | cons a as =>
        rw [hd] at hchars hsimple hall
        have ha : a ≠ obraceC := (hchars a (List.mem_cons_self a as)).1
        have hnocb : ∀ c ∈ a :: as, c ≠ cbraceC := fun c hc => (hchars c hc).2.1
        simp only [renderToks, hd, List.cons_append, List.length_cons, List.length_append] at hf ⊢
        match fuel, hf with
        | f + 1, hf =>
          simp only [formatMapF, if_pos rfl, if_neg ha]
          rw [show a :: (as ++ cbraceC :: renderToks ts) = (a :: as) ++ cbraceC :: renderToks ts from rfl,
              splitAtCbrace_append (a :: as) (renderToks ts) hnocb]
          have hpred : ∀ c ∈ a :: as, (fun c => c ≠ '!' && c ≠ ':') c = true := by
            intro c hc
            simp only [Bool.and_eq_true, decide_eq_true_eq]
            exact ⟨(hchars c hc).2.2.1, (hchars c hc).2.2.2⟩
          simp only [evalField, takeWhile_all (a :: as) hpred, if_pos rfl, hsimple, if_pos]
          rw [show String.mk (a :: as) = n from hd ▸ string_mk_data n]
          rw [ih f hts (by omega)]
          simp [substToks]

def litToks (s : String) : List Tok := s.data.map Tok.lit

/-- The default `MSG_TEMPLATE` as a token list. -/
def msgToks : List Tok :=
  litToks "Te achei " ++ [Tok.ph "first_name"] ++ litToks "! Você deixou " ++ [Tok.ph "product"] ++
  litToks " no carrinho por " ++ [Tok.ph "price"] ++ litToks ".\nFinalize aqui: " ++ [Tok.ph "checkout_url"] ++
  litToks "\n— " ++ [Tok.ph "brand"]

theorem renderToks_msgToks : renderToks msgToks = MSG_TEMPLATE.data := rfl

theorem msgToks_valid : ∀ t ∈ msgToks, t.valid = true := by decide

/-- Rendering the default template never fails, whatever the mapping. -/
theorem safe_format_msg (m : String → Option String) :
    safe_format (some MSG_TEMPLATE) m = .ok (substToks m msgToks) := by
  unfold safe_format
  rw [show (some MSG_TEMPLATE).getD "" = MSG_TEMPLATE from rfl, ← renderToks_msgToks]
  exact formatMapF_toks m msgToks _ msgToks_valid (Nat.lt_succ_self _)

/-- If every probed candidate is inconclusive, the loop returns the
rendering of the last candidate and its outcome, whatever was
accumulated before. -/
theorem probeLoop_inconclusive_all (oracle : Attempt → PostResult) (alast : Attempt) :
    ∀ (init : List Attempt) (acc : Option Json),
      (∀ x ∈ init ++ [alast], inconclusiveB (oracle x) = true) →
      probeLoop oracle (init ++ [alast]) acc = inconclusiveJson alast (oracle alast) := by
  intro init
  induction init with
  | nil =>
    intro acc h
    have ha := h alast (by simp)
    cases ho : oracle alast with
    | resp st text =>
      rw [ho] at ha
      simp only [inconclusiveB] at ha
      simp [probeLoop, ho, ha]
    | exn msg => simp [probeLoop, ho]
  | cons b bs ih =>
    intro acc h
    have hb := h b (by simp)
    cases ho : oracle b with
    | resp st text =>
      rw [ho] at hb
      simp only [inconclusiveB] at hb
      simp only [List.cons_append, probeLoop, ho, hb, if_true]
      exact ih _ fun x hx => h x (by simp at hx ⊢; tauto)
    | exn msg =>
      simp only [List.cons_append, probeLoop, ho]
      exact ih _ fun x hx => h x (by simp at hx ⊢; tauto)

/-- The first conclusive response ends the probe immediately with the
full diagnostic record of that attempt. -/
theorem probeLoop_first_conclusive (oracle : Attempt → PostResult) (a : Attempt) (st : Nat)
    (text : String) (post : List Attempt) (ho : oracle a = .resp st text)
    (hst : (st = 404 || st = 405) = false) :
    ∀ (pre : List Attempt) (acc : Option Json), (∀ x ∈ pre, inconclusiveB (oracle x) = true) →
      probeLoop oracle (pre ++ a :: post) acc = conclusiveJson a st text := by
  intro pre
  induction pre with
  | nil =>
    intro acc _
    simp [probeLoop, ho, hst]
  | cons b bs ih =>
    intro acc h
    have hb := h b (by simp)
    cases ho2 : oracle b with
    | resp st2 text2 =>
      rw [ho2] at hb
      simp only [inconclusiveB] at hb
      simp only [List.cons_append, probeLoop, ho2, hb, if_true]
      exact ih _ fun x hx => h x (by simp [hx])
    | exn msg =>
      simp only [List.cons_append, probeLoop, ho2]
      exact ih _ fun x hx => h x (by simp [hx])

/-! ### Well-shapedness

`parse_cartpanda_payload` can raise on payloads whose nested values have
unexpected types (for example a non-dict under `"data"`).  The predicate
below collects exactly the guards under which every operation of the
parsers is defined: values read as dicts are dicts (or falsy), the
line-items value is a list (or falsy) of dicts (or falsy), title
candidates fed to `str.join` are strings (or falsy), and the resolved
customer name can be split when a first name is needed. -/

def objOrFalsy (j : Json) : Bool := !j.truthy || j.isObj

def arrOrFalsy (j : Json) : Bool := !j.truthy || j.isArr

def strOrFalsy (j : Json) : Bool := !j.truthy || j.isStr

/-- Can `v.split()[0]` be taken?  Needs a string with at least one word. -/
def splitSafe : Json → Bool
  | .str s => !(pySplit s).isEmpty
  | _ => false

/-- Guards for `_product_from_item`/`_price_from_item_or_totals` on one
line item. -/
def itemOK (it : Json) : Bool :=
  it.isObj &&
  objOrFalsy (jget it "variant") &&
  objOrFalsy (pyOr (jget it "product") (jget (pyOr (jget it "variant") (.obj [])) "product")) &&
  strOrFalsy (jget it "title") &&
  strOrFalsy (pyOr (jget it "variant_title") (jget (pyOr (jget it "variant") (.obj [])) "title"))

/-- The name value computed by `parse_abandoned_payload`. -/
def abandonedName (cu : Json) : Json :=
  pyOr (jget cu "full_name")
    (pyOr (.str (concatName (jgetD cu "first_name" (.str "")) (jgetD cu "last_name" (.str ""))))
      (.str "cliente"))

/-- The name value computed by `parse_order_payload`. -/
def orderName (cu : Json) : Json :=
  pyOr (jget cu "name")
    (pyOr (jget cu "full_name")
      (pyOr (.str (concatName (jgetD cu "first_name" (.str "")) (jgetD cu "last_name" (.str ""))))
        (.str "cliente")))

/-- The first line item as used by `parse_abandoned_payload`
(`(items[0] or {}) if items else {}`). -/
def firstItemA (items : Json) : Json :=
  if items.truthy then
    match items with
    | .arr (x :: _) => pyOr x (.obj [])
    | _ => .obj []
  else .obj []

/-- The first line item as used by `parse_order_payload`
(`items[0] or {}`, where the item chain always ends in `[{}]`). -/
def firstItemO (items : Json) : Json :=
  match items with
  | .arr (x :: _) => pyOr x (.obj [])
  | _ => .obj []

def wellAbandoned (payload : Json) : Bool :=
  payload.isObj &&
  objOrFalsy (jgetD payload "data" (.obj [])) &&
  (let data := pyOr (jgetD payload "data" (.obj [])) (.obj [])
   let cust := pyOr (jget data "customer") (pyOr (jget data "customer_info") (.obj []))
   let items := pyOr (jget data "cart_line_items") (pyOr (jget data "line_items") (pyOr (jget data "items") (.arr [])))
   cust.isObj &&
   ((jget cust "first_name").truthy || splitSafe (abandonedName cust)) &&
   arrOrFalsy items &&
   itemOK (firstItemA items))

def wellOrder (payload : Json) : Bool :=
  payload.isObj &&
  objOrFalsy (jgetD payload "order" (.obj [])) &&
  objOrFalsy (jget payload "data") &&
  (let order := pyOr (jgetD payload "order" (.obj [])) (.obj [])
   let customer := pyOr (jgetD order "customer" (.obj [])) (.obj [])
   let items := pyOr (jget order "line_items") (pyOr (jget order "items") (.arr [.obj []]))
   objOrFalsy (jgetD order "customer" (.obj [])) &&
   ((jget customer "first_name").truthy || splitSafe (orderName customer)) &&
   arrOrFalsy items &&
   itemOK (firstItemO items))

/-- The lowered event string used for classification, defined on payloads
whose event value is a string or falsy. -/
def evString (j : Json) : String :=
  match pyOr j (.str "") with
  | .str s => strLower s
  | _ => ""

def wellShaped (payload : Json) : Bool :=
  payload.isObj && strOrFalsy (jget payload "event") &&
  (if strContains (evString (jget payload "event")) "abandoned" || (hasKey payload "data" && (jget payload "data").truthy)
   then wellAbandoned payload
   else wellOrder payload)

theorem pyLower_evString {j : Json} (h : strOrFalsy j = true) :
    pyLower (pyOr j (.str "")) = .ok (evString j) := by
  unfold evString pyOr
  split
  · simp only [strOrFalsy, Bool.or_eq_true, Bool.not_eq_true] at h
    rcases h with h | h
    · rename_i ht; rw [ht] at h; cases h
    · cases j
      case str s => rfl
      all_goals simp [Json.isStr] at h
  · rfl

theorem pyOr_isObj {a b : Json} (ha : objOrFalsy a = true) (hb : b.isObj = true) :
    (pyOr a b).isObj = true := by
  unfold pyOr
  split
  · rename_i ht
    simp only [objOrFalsy, ht, Bool.not_true, Bool.false_or] at ha
    exact ha
  · exact hb

theorem pyOr3_isObj {a b : Json} (h : objOrFalsy (pyOr a b) = true) :
    (pyOr a (pyOr b (.obj []))).isObj = true := by
  by_cases ht : a.truthy = true
  · have : pyOr a b = a := by simp [pyOr, ht]
    rw [this] at h
    simp [pyOr, ht]
    simp only [objOrFalsy, ht, Bool.not_true, Bool.false_or] at h
    exact h
  · have hb : pyOr a b = b := by simp [pyOr, ht]
    rw [hb] at h
    have h2 : pyOr a (pyOr b (.obj [])) = pyOr b (.obj []) := by simp [pyOr, ht]
    rw [h2]
    exact pyOr_isObj h rfl

theorem firstTruthyKey_truthy {fs : List (String × Json)} :
    ∀ {keys : List String} {v : Json}, firstTruthyKey fs keys = some v → v.truthy = true := by
  intro keys
  induction keys with
  | nil => intro v h; simp [firstTruthyKey] at h
  | cons k rest ih =>
    intro v h
    simp only [firstTruthyKey] at h
    split at h
    · cases h
      assumption
    · exact ih h

theorem joinFilter_ok {l : List Json} (h : ∀ j ∈ l, strOrFalsy j = true) :
    ∃ parts, joinFilter l = .ok parts := by
  induction l with
  | nil => exact ⟨[], rfl⟩
  | cons j rest ih =>
    obtain ⟨p, hp⟩ := ih fun x hx => h x (List.mem_cons_of_mem j hx)
    have hj := h j (List.mem_cons_self j rest)
    by_cases ht : j.truthy = true
    · have hstr : j.isStr = true := by
        simp only [strOrFalsy, Bool.or_eq_true, Bool.not_eq_true] at hj
        rcases hj with h2 | h2
        · rw [ht] at h2; cases h2
        · exact h2
      obtain ⟨s, rfl⟩ : ∃ s, j = .str s := by
        cases j
        case str s => exact ⟨s, rfl⟩
        all_goals simp [Json.isStr] at hstr
      exact ⟨s :: p, by simp [joinFilter, ht, hp]⟩
    · exact ⟨p, by simp [joinFilter, ht, hp]⟩

theorem price_ok {it : Json} (hobj : it.isObj = true) (totals : List Json) :
    ∃ s, _price_from_item_or_totals it totals = .ok s := by
  unfold _price_from_item_or_totals
  rw [dget_obj hobj "price"]
  simp only [ok_bind]
  rw [dget_obj hobj "unit_price"]
  simp only [ok_bind]
  rw [dget_obj hobj "line_price"]
  simp only [ok_bind]
  rw [dget_obj hobj "subtotal"]
  simp only [ok_bind]
  rw [dget_obj hobj "total"]
  simp only [ok_bind]
  exact ⟨_, rfl⟩

theorem product_ok {it : Json} (h : itemOK it = true) :
    ∃ v, _product_from_item it = .ok v ∧ v ≠ .null := by
  simp only [itemOK, Bool.and_eq_true] at h
  obtain ⟨⟨⟨⟨hobj, hvar⟩, hprod⟩, hti⟩, hvt⟩ := h
  have hvarobj : (pyOr (jget it "variant") (.obj [])).isObj = true := pyOr_isObj hvar rfl
  unfold _product_from_item
  rw [dget_obj hobj "variant"]
  simp only [ok_bind]
  rw [dget_obj hobj "product"]
  simp only [ok_bind]
  rw [dget_obj hvarobj "product"]
  simp only [ok_bind]
  rw [dget_obj hobj "name"]
  simp only [ok_bind]
  rw [dget_obj hobj "title"]
  simp only [ok_bind]
  rw [dget_obj (pyOr3_isObj hprod) "title"]
  simp only [ok_bind]
  rw [dget_obj hobj "variant_title"]
  simp only [ok_bind]
  rw [dget_obj hvarobj "title"]
  simp only [ok_bind]
  obtain ⟨parts, hparts⟩ := joinFilter_ok (l := [jget it "title", pyOr (jget it "variant_title") (jget (pyOr (jget it "variant") (.obj [])) "title")]) (by
    intro x hx
    simp only [List.mem_cons, List.mem_singleton] at hx
    rcases hx with rfl | rfl | hx
    · exact hti
    · exact hvt
    · cases hx)
  rw [hparts]
  simp only [ok_bind]
  exact ⟨_, rfl, pyOr_ne_null (by simp)⟩

theorem resolve_ok {payload sc : Json} (hp : payload.isObj = true) (hs : sc.isObj = true)
    (hd : objOrFalsy (jget payload "data") = true) :
    ∃ v, resolve_checkout_url payload sc = .ok v ∧ v ≠ .null := by
  obtain ⟨pfs, rfl⟩ : ∃ pfs, payload = .obj pfs := by
    cases payload
    case obj pfs => exact ⟨pfs, rfl⟩
    all_goals simp [Json.isObj] at hp
  have hsObj : (pyOr sc (.obj [])).isObj = true := by
    unfold pyOr
    split
    · exact hs
    · rfl
  unfold resolve_checkout_url
  rcases hE : pyOr sc (.obj []) with _ | _ | _ | _ | _ | sfs
  all_goals rw [hE] at hsObj
  all_goals try simp [Json.isObj] at hsObj
  simp only [ok_bind]
  rcases hr1 : firstTruthyKey sfs urlKeys with _ | v
  case some => exact ⟨v, rfl, truthy_ne_null (firstTruthyKey_truthy hr1)⟩
  simp only [ok_bind]
  rcases hr2 : firstTruthyKey pfs urlKeys with _ | v
  case some => exact ⟨v, rfl, truthy_ne_null (firstTruthyKey_truthy hr2)⟩
  rw [dget_obj (show (Json.obj pfs).isObj = true from rfl) "data"]
  simp only [ok_bind]
  by_cases htd : (jget (Json.obj pfs) "data").truthy = true
  · simp only [objOrFalsy, htd, Bool.not_true, Bool.false_or] at hd
    rcases hE2 : jget (Json.obj pfs) "data" with _ | _ | _ | _ | _ | dfs
    all_goals rw [hE2] at hd htd
    all_goals try simp [Json.isObj] at hd
    simp only [htd, if_true]
    rcases hr3 : firstTruthyKey dfs urlKeys with _ | v
    · exact ⟨.str "", rfl, by simp⟩
    · exact ⟨v, rfl, truthy_ne_null (firstTruthyKey_truthy hr3)⟩
  · simp only [htd, if_false]
    exact ⟨.str "", rfl, by simp⟩

@[simp] theorem exc_pure_bind {α β : Type} (a : α) (f : α → Except String β) :
    (pure a : Except String α) >>= f = f a := rfl

@[simp] theorem exc_pure_eq_ok {α : Type} (a : α) :
    (pure a : Except String α) = .ok a := rfl

theorem objOrFalsy_jget_of_jgetD {pfs : List (String × Json)} {k : String}
    (h : objOrFalsy (jgetD (Json.obj pfs) k (.obj [])) = true) :
    objOrFalsy (jget (Json.obj pfs) k) = true := by
  simp only [jget, jgetD] at h ⊢
  revert h
  cases jlookup pfs k
  · intro _
    rfl
  · intro h
    simpa using h

/-- A truthy list value yields its head under `[0]`, and that head (or
`{}`) is what `firstItemA` denotes. -/
theorem idx0_ok_of {items : Json} (ht : items.truthy = true) (ha : items.isArr = true) :
    ∃ x, items.idx0 = .ok x ∧ firstItemA items = pyOr x (.obj []) := by
  obtain ⟨l, rfl⟩ : ∃ l, items = .arr l := by
    cases items
    case arr l => exact ⟨l, rfl⟩
    all_goals simp [Json.isArr] at ha
  cases l with
  | nil => simp [Json.truthy] at ht
  | cons x xs => exact ⟨x, rfl, by simp [firstItemA, ht]⟩

/-- Same for `parse_order_payload`, whose items chain is always truthy. -/
theorem idx0_ok_ofO {items : Json} (ht : items.truthy = true) (ha : items.isArr = true) :
    ∃ x, items.idx0 = .ok x ∧ firstItemO items = pyOr x (.obj []) := by
  obtain ⟨l, rfl⟩ : ∃ l, items = .arr l := by
    cases items
    case arr l => exact ⟨l, rfl⟩
    all_goals simp [Json.isArr] at ha
  cases l with
  | nil => simp [Json.truthy] at ht
  | cons x xs => exact ⟨x, rfl, by simp [firstItemO]⟩

/-- A split-safe value is a truthy string whose first word exists. -/
theorem splitHead_ok {j : Json} (h : splitSafe j = true) :
    j.truthy = true ∧ ∃ w, pySplitHead j = .ok w := by
  obtain ⟨s, rfl⟩ : ∃ s, j = .str s := by
    cases j
    case str s => exact ⟨s, rfl⟩
    all_goals simp [splitSafe] at h
  simp only [splitSafe, Bool.not_eq_true'] at h
  constructor
  · simp only [Json.truthy, ne_eq, decide_eq_true_eq]
    intro hs
    subst hs
    simp [pySplit, splitWSAux] at h
  · cases hps : pySplit s with
    | nil => rw [hps] at h; simp at h
    | cons w ws => exact ⟨w, by simp [pySplitHead, hps]⟩

theorem firstNameOf_ok {fi name : Json} (h : (fi.truthy || splitSafe name) = true) :
    ∃ v, firstNameOf fi name = .ok v := by
  by_cases hfi : fi.truthy = true
  · exact ⟨fi, by simp [firstNameOf, hfi]⟩
  · have hfi2 : fi.truthy = false := by simpa using hfi
    rw [hfi2, Bool.false_or] at h
    obtain ⟨hnt, w, hw⟩ := splitHead_ok h
    exact ⟨.str w, by simp [firstNameOf, hfi, hnt, hw]⟩

theorem firstNameOf_ne_null {fi name v : Json} (h : firstNameOf fi name = .ok v) : v ≠ .null := by
  unfold firstNameOf at h
  by_cases hfi : fi.truthy = true
  · rw [if_pos hfi] at h
    cases h
    exact truthy_ne_null hfi
  · rw [if_neg hfi] at h
    by_cases hnt : name.truthy = true
    · rw [if_pos hnt] at h
      obtain ⟨w, hw, h⟩ := except_bind_ok h
      cases h
      simp
    · rw [if_neg hnt] at h
      cases h
      simp

theorem firstOfA_eq {items : Json} (h : arrOrFalsy items = true) :
    firstOfA items = .ok (firstItemA items) := by
  by_cases hit : items.truthy = true
  · have harr : items.isArr = true := by
      simp only [arrOrFalsy, hit, Bool.not_true, Bool.false_or] at h
      exact h
    obtain ⟨x, hx, hfa⟩ := idx0_ok_of hit harr
    rw [hfa]
    simp [firstOfA, hit, hx]
  · have hfa : firstItemA items = .obj [] := by simp [firstItemA, hit]
    rw [hfa]
    simp [firstOfA, hit]

theorem firstOfO_eq {items : Json} (ht : items.truthy = true) (ha : items.isArr = true) :
    firstOfO items = .ok (firstItemO items) := by
  obtain ⟨x, hx, hfa⟩ := idx0_ok_ofO ht ha
  rw [hfa]
  simp [firstOfO, hx]

theorem parse_abandoned_ok {p : Json} (h : wellAbandoned p = true) :
    ∃ r, parse_abandoned_payload p = .ok r := by
  simp only [wellAbandoned, Bool.and_eq_true] at h
  obtain ⟨⟨hp, hdata⟩, ⟨⟨hcust, hname⟩, hitems⟩, hitem⟩ := h
  obtain ⟨pfs, rfl⟩ : ∃ pfs, p = .obj pfs := by
    cases p
    case obj pfs => exact ⟨pfs, rfl⟩
    all_goals simp [Json.isObj] at hp
  have hdataobj : (pyOr (jgetD (Json.obj pfs) "data" (.obj [])) (.obj [])).isObj = true :=
    pyOr_isObj hdata rfl
  unfold parse_abandoned_payload
  rw [dgetD_obj (show (Json.obj pfs).isObj = true from rfl) "data" (.obj [])]
  simp only [ok_bind]
  rw [dget_obj hdataobj "customer"]
  simp only [ok_bind]
  rw [dget_obj hdataobj "customer_info"]
  simp only [ok_bind]
  rw [dget_obj hdataobj "cart_line_items"]
  simp only [ok_bind]
  rw [dget_obj hdataobj "line_items"]
  simp only [ok_bind]
  rw [dget_obj hdataobj "items"]
  simp only [ok_bind]
  rw [dget_obj hcust "full_name"]
  simp only [ok_bind]
  rw [dgetD_obj hcust "first_name" (.str "")]
  simp only [ok_bind]
  rw [dgetD_obj hcust "last_name" (.str "")]
  simp only [ok_bind]
  rw [dget_obj hcust "first_name"]
  simp only [ok_bind]
  set data := pyOr (jgetD (Json.obj pfs) "data" (Json.obj [])) (Json.obj []) with hdataEq
  set cust := pyOr (jget data "customer") (pyOr (jget data "customer_info") (Json.obj [])) with hcustEq
  set items := pyOr (jget data "cart_line_items") (pyOr (jget data "line_items") (pyOr (jget data "items") (Json.arr []))) with hitemsEq
  rw [abandonedName] at hname
  obtain ⟨fnv, hfnv⟩ := firstNameOf_ok hname
  rw [hfnv]
  simp only [ok_bind]
  rw [firstOfA_eq hitems]
  simp only [ok_bind]
  obtain ⟨v, hv, _⟩ := product_ok hitem
  rw [hv]
  simp only [ok_bind]
  rw [dget_obj hdataobj "total_line_items_price"]
  simp only [ok_bind]
  rw [dget_obj hdataobj "subtotal_price"]
  simp only [ok_bind]
  rw [dget_obj hdataobj "total_price"]
  simp only [ok_bind]
  have hfobj : (firstItemA items).isObj = true := by
    simp only [itemOK, Bool.and_eq_true] at hitem
    exact hitem.1.1.1.1
  obtain ⟨ps, hps⟩ := price_ok hfobj [jget data "total_line_items_price", jget data "subtotal_price", jget data "total_price"]
  rw [hps]
  simp only [ok_bind]
  obtain ⟨u, hu, _⟩ := resolve_ok (show (Json.obj pfs).isObj = true from rfl) hdataobj (objOrFalsy_jget_of_jgetD hdata)
  rw [hu]
  simp only [ok_bind]
  rw [dget_obj hdataobj "id"]
  simp only [ok_bind]
  rw [dget_obj (show (Json.obj pfs).isObj = true from rfl) "event"]
  simp only [ok_bind]
  rw [dget_obj hcust "phone"]
  simp only [ok_bind]
  exact ⟨_, rfl⟩

theorem parse_order_ok {p : Json} (h : wellOrder p = true) :
    ∃ r, parse_order_payload p = .ok r := by
  simp only [wellOrder, Bool.and_eq_true] at h
  obtain ⟨⟨⟨hp, hord⟩, hdat⟩, ⟨⟨hcusOF, hname⟩, hitems⟩, hitem⟩ := h
  obtain ⟨pfs, rfl⟩ : ∃ pfs, p = .obj pfs := by
    cases p
    case obj pfs => exact ⟨pfs, rfl⟩
    all_goals simp [Json.isObj] at hp
  have hordobj : (pyOr (jgetD (Json.obj pfs) "order" (.obj [])) (.obj [])).isObj = true :=
    pyOr_isObj hord rfl
  have hcusobj : (pyOr (jgetD (pyOr (jgetD (Json.obj pfs) "order" (.obj [])) (.obj [])) "customer" (.obj [])) (.obj [])).isObj = true :=
    pyOr_isObj hcusOF rfl
  unfold parse_order_payload
  rw [dgetD_obj (show (Json.obj pfs).isObj = true from rfl) "order" (.obj [])]
  simp only [ok_bind]
  rw [dgetD_obj hordobj "customer" (.obj [])]
  simp only [ok_bind]
  rw [dget_obj hordobj "line_items"]
  simp only [ok_bind]
  rw [dget_obj hordobj "items"]
  simp only [ok_bind]
  rw [dget_obj hcusobj "name"]
  simp only [ok_bind]
  rw [dget_obj hcusobj "full_name"]
  simp only [ok_bind]
  rw [dgetD_obj hcusobj "first_name" (.str "")]
  simp only [ok_bind]
  rw [dgetD_obj hcusobj "last_name" (.str "")]
  simp only [ok_bind]
  rw [dget_obj hcusobj "first_name"]
  simp only [ok_bind]
  set order := pyOr (jgetD (Json.obj pfs) "order" (Json.obj [])) (Json.obj []) with hordEq
  set customer := pyOr (jgetD order "customer" (Json.obj [])) (Json.obj []) with hcusEq
  set items := pyOr (jget order "line_items") (pyOr (jget order "items") (Json.arr [Json.obj []])) with hitemsEq
  have hit : items.truthy = true := pyOr_truthy (pyOr_truthy rfl)
  have harr : items.isArr = true := by
    simp only [arrOrFalsy, hit, Bool.not_true, Bool.false_or] at hitems
    exact hitems
  rw [orderName] at hname
  obtain ⟨fnv, hfnv⟩ := firstNameOf_ok hname
  rw [hfnv]
  simp only [ok_bind]
  rw [firstOfO_eq hit harr]
  simp only [ok_bind]
  obtain ⟨v, hv, _⟩ := product_ok hitem
  rw [hv]
  simp only [ok_bind]
  rw [dget_obj hordobj "total_line_items_price"]
  simp only [ok_bind]
  rw [dget_obj hordobj "subtotal_price"]
  simp only [ok_bind]
  rw [dget_obj hordobj "total_price"]
  simp only [ok_bind]
  rw [dget_obj hordobj "unformatted_total_price"]
  simp only [ok_bind]
  have hfobj : (firstItemO items).isObj = true := by
    simp only [itemOK, Bool.and_eq_true] at hitem
    exact hitem.1.1.1.1
  obtain ⟨ps, hps⟩ := price_ok hfobj [jget order "total_line_items_price", jget order "subtotal_price", jget order "total_price", jget order "unformatted_total_price"]
  rw [hps]
  simp only [ok_bind]
  obtain ⟨u, hu, _⟩ := resolve_ok (show (Json.obj pfs).isObj = true from rfl) hordobj hdat
  rw [hu]
  simp only [ok_bind]
  rw [dget_obj hordobj "id"]
  simp only [ok_bind]
  rw [dget_obj (show (Json.obj pfs).isObj = true from rfl) "event"]
  simp only [ok_bind]
  rw [dget_obj hordobj "status"]
  simp only [ok_bind]
  rw [dget_obj hcusobj "phone"]
  simp only [ok_bind]
  exact ⟨_, rfl⟩

theorem parse_cartpanda_ok {p : Json} (h : wellShaped p = true) :
    ∃ r, parse_cartpanda_payload p = .ok r := by
  simp only [wellShaped, Bool.and_eq_true] at h
  obtain ⟨⟨hp, hev⟩, hbranch⟩ := h
  obtain ⟨pfs, rfl⟩ : ∃ pfs, p = .obj pfs := by
    cases p
    case obj pfs => exact ⟨pfs, rfl⟩
    all_goals simp [Json.isObj] at hp
  unfold parse_cartpanda_payload
  rw [dget_obj (show (Json.obj pfs).isObj = true from rfl) "event"]
  simp only [ok_bind]
  rw [pyLower_evString hev]
  simp only [ok_bind]
  by_cases hc : (strContains (evString (jget (Json.obj pfs) "event")) "abandoned" ||
      (hasKey (Json.obj pfs) "data" && (jget (Json.obj pfs) "data").truthy)) = true
  · rw [if_pos hc]
    rw [if_pos hc] at hbranch
    exact parse_abandoned_ok hbranch
  · rw [if_neg hc]
    rw [if_neg hc] at hbranch
    obtain ⟨r, hr⟩ := parse_order_ok hbranch
    by_cases ho : hasKey (Json.obj pfs) "order" = true
    · rw [if_pos ho]
      exact ⟨r, hr⟩
    · rw [if_neg ho]
      exact ⟨r, hr⟩

theorem product_ne_null {it v : Json} (h : _product_from_item it = .ok v) : v ≠ .null := by
  unfold _product_from_item at h
  obtain ⟨a1, _, h⟩ := except_bind_ok h
  obtain ⟨a2, _, h⟩ := except_bind_ok h
  obtain ⟨a3, _, h⟩ := except_bind_ok h
  obtain ⟨a4, _, h⟩ := except_bind_ok h
  obtain ⟨a5, _, h⟩ := except_bind_ok h
  obtain ⟨a6, _, h⟩ := except_bind_ok h
  obtain ⟨a7, _, h⟩ := except_bind_ok h
  obtain ⟨a8, _, h⟩ := except_bind_ok h
  obtain ⟨a9, _, h⟩ := except_bind_ok h
  cases h
  exact pyOr_ne_null (by simp)

theorem resolve_ne_null {p sc v : Json} (h : resolve_checkout_url p sc = .ok v) : v ≠ .null := by
  unfold resolve_checkout_url at h
  rcases hE : pyOr sc (.obj []) with _ | _ | _ | _ | _ | sfs
  all_goals rw [hE] at h
  all_goals simp only [ok_bind, error_bind] at h
  all_goals try cases h
  rcases hks1 : firstTruthyKey sfs urlKeys with _ | w
  all_goals rw [hks1] at h
  case some =>
    simp only [exc_pure_eq_ok, Except.ok.injEq] at h
    subst h
    exact truthy_ne_null (firstTruthyKey_truthy hks1)
  rcases p with _ | _ | _ | _ | _ | pfs
  all_goals simp only [ok_bind, error_bind] at h
  all_goals try cases h
  rcases hks2 : firstTruthyKey pfs urlKeys with _ | w
  all_goals rw [hks2] at h
  case some =>
    simp only [exc_pure_eq_ok, Except.ok.injEq] at h
    subst h
    exact truthy_ne_null (firstTruthyKey_truthy hks2)
  simp only [Json.dget, ok_bind] at h
  by_cases htd : (jget (Json.obj pfs) "data").truthy = true
  · rw [if_pos htd] at h
    rcases hd : jget (Json.obj pfs) "data" with _ | _ | _ | _ | _ | dfs
    all_goals rw [hd] at h
    all_goals try cases h
    rcases hks3 : firstTruthyKey dfs urlKeys with _ | w
    · simp
    · simpa using truthy_ne_null (firstTruthyKey_truthy hks3)
  · rw [if_neg htd] at h
    cases h
    simp

theorem parse_abandoned_fields {p : Json} {r : CanonRecord} (h : parse_abandoned_payload p = .ok r) :
    r.event ≠ .null ∧ r.name ≠ .null ∧ r.first_name ≠ .null ∧ r.product ≠ .null ∧
      r.checkout_url ≠ .null ∧ r.cart_url ≠ .null := by
  unfold parse_abandoned_payload at h
  obtain ⟨dataRaw, _, h⟩ := except_bind_ok h
  obtain ⟨c1, _, h⟩ := except_bind_ok h
  obtain ⟨c2, _, h⟩ := except_bind_ok h
  obtain ⟨i1, _, h⟩ := except_bind_ok h
  obtain ⟨i2, _, h⟩ := except_bind_ok h
  obtain ⟨i3, _, h⟩ := except_bind_ok h
  obtain ⟨fullName, _, h⟩ := except_bind_ok h
  obtain ⟨fiD, _, h⟩ := except_bind_ok h
  obtain ⟨laD, _, h⟩ := except_bind_ok h
  obtain ⟨fi, _, h⟩ := except_bind_ok h
  obtain ⟨fnv, hfn, h⟩ := except_bind_ok h
  obtain ⟨first, _, h⟩ := except_bind_ok h
  obtain ⟨prod, hprod, h⟩ := except_bind_ok h
  obtain ⟨t1, _, h⟩ := except_bind_ok h
  obtain ⟨t2, _, h⟩ := except_bind_ok h
  obtain ⟨t3, _, h⟩ := except_bind_ok h
  obtain ⟨price, _, h⟩ := except_bind_ok h
  obtain ⟨curl, hres, h⟩ := except_bind_ok h
  obtain ⟨oid, _, h⟩ := except_bind_ok h
  obtain ⟨ev, _, h⟩ := except_bind_ok h
  obtain ⟨ph, _, h⟩ := except_bind_ok h
  cases h
  exact ⟨pyOr_ne_null (by simp), pyOr_ne_null (pyOr_ne_null (by simp)), firstNameOf_ne_null hfn,
    product_ne_null hprod, resolve_ne_null hres, resolve_ne_null hres⟩

theorem parse_order_fields {p : Json} {r : CanonRecord} (h : parse_order_payload p = .ok r) :
    r.event ≠ .null ∧ r.name ≠ .null ∧ r.first_name ≠ .null ∧ r.product ≠ .null ∧
      r.checkout_url ≠ .null ∧ r.cart_url ≠ .null := by
  unfold parse_order_payload at h
  obtain ⟨orderRaw, _, h⟩ := except_bind_ok h
  obtain ⟨custRaw, _, h⟩ := except_bind_ok h
  obtain ⟨i1, _, h⟩ := except_bind_ok h
  obtain ⟨i2, _, h⟩ := except_bind_ok h
  obtain ⟨cname, _, h⟩ := except_bind_ok h
  obtain ⟨fullName, _, h⟩ := except_bind_ok h
  obtain ⟨fiD, _, h⟩ := except_bind_ok h
  obtain ⟨laD, _, h⟩ := except_bind_ok h
  obtain ⟨fi, _, h⟩ := except_bind_ok h
  obtain ⟨fnv, hfn, h⟩ := except_bind_ok h
  obtain ⟨first, _, h⟩ := except_bind_ok h
  obtain ⟨prod, hprod, h⟩ := except_bind_ok h
  obtain ⟨t1, _, h⟩ := except_bind_ok h
  obtain ⟨t2, _, h⟩ := except_bind_ok h
  obtain ⟨t3, _, h⟩ := except_bind_ok h
  obtain ⟨t4, _, h⟩ := except_bind_ok h
  obtain ⟨price, _, h⟩ := except_bind_ok h
  obtain ⟨curl, hres, h⟩ := except_bind_ok h
  obtain ⟨oid, _, h⟩ := except_bind_ok h
  obtain ⟨ev, _, h⟩ := except_bind_ok h
  obtain ⟨st, _, h⟩ := except_bind_ok h
  obtain ⟨ph, _, h⟩ := except_bind_ok h
  cases h
  exact ⟨pyOr_ne_null (pyOr_ne_null (by simp)), pyOr_ne_null (pyOr_ne_null (pyOr_ne_null (by simp))),
    firstNameOf_ne_null hfn, product_ne_null hprod, resolve_ne_null hres, resolve_ne_null hres⟩

theorem parse_cartpanda_fields {p : Json} {r : CanonRecord} (h : parse_cartpanda_payload p = .ok r) :
    r.event ≠ .null ∧ r.name ≠ .null ∧ r.first_name ≠ .null ∧ r.product ≠ .null ∧
      r.checkout_url ≠ .null ∧ r.cart_url ≠ .null := by
  unfold parse_cartpanda_payload at h
  obtain ⟨evRaw, _, h⟩ := except_bind_ok h
  obtain ⟨event, _, h⟩ := except_bind_ok h
  by_cases hc : (strContains event "abandoned" || (hasKey p "data" && (jget p "data").truthy)) = true
  · rw [if_pos hc] at h
    exact parse_abandoned_fields h
  · rw [if_neg hc] at h
    by_cases ho : hasKey p "order" = true
    · rw [if_pos ho] at h
      exact parse_order_fields h
    · rw [if_neg ho] at h
      exact parse_order_fields h

/-- The handler on a non-abandonment event: the ignored response, for
any delivery function. -/
theorem webhook_ignored {p : Json} {info : CanonRecord} {evRaw : Json} {ev : String}
    (send : String → String → Json)
    (hparse : parse_cartpanda_payload p = .ok info)
    (hev : p.dget "event" = .ok evRaw)
    (hlow : pyLower (pyOr evRaw (pyOr info.event (.str ""))) = .ok ev)
    (hno : strContains ev "abandoned" = false) :
    cartpanda_webhook p send = .ok (ignoredJson ev info.order_id) := by
  have hno2 : strContains ev "checkout.abandoned" = false := by
    by_contra hc
    have h2 := @strContains_abandoned_of_checkout ev (by simpa using hc)
    rw [h2] at hno
    cases hno
  unfold cartpanda_webhook
  rw [hparse]
  simp only [ok_bind]
  rw [hev]
  simp only [ok_bind]
  rw [hlow]
  simp only [ok_bind]
  rw [if_pos (show (!strContains ev "abandoned" && !strContains ev "checkout.abandoned") = true by
    rw [hno, hno2]; rfl)]
  rfl

/-- The handler on an abandonment event with a valid phone: the
`whatsapp_attempted` response, carrying whatever the delivery function
returns inside `result`. -/
theorem webhook_attempted {p : Json} {info : CanonRecord} {evRaw : Json} {ev pn : String}
    (send : String → String → Json)
    (hparse : parse_cartpanda_payload p = .ok info)
    (hev : p.dget "event" = .ok evRaw)
    (hlow : pyLower (pyOr evRaw (pyOr info.event (.str ""))) = .ok ev)
    (hab : strContains ev "abandoned" = true)
    (hph : normalize_phone info.phone = some pn) :
    cartpanda_webhook p send =
      .ok (attemptedJson info.order_id (send pn (substToks (webhookData info) msgToks))) := by
  unfold cartpanda_webhook
  rw [hparse]
  simp only [ok_bind]
  rw [hev]
  simp only [ok_bind]
  rw [hlow]
  simp only [ok_bind]
  rw [if_neg (show ¬((!strContains ev "abandoned" && !strContains ev "checkout.abandoned") = true) by
    rw [hab]; simp)]
  rw [hph]
  simp only [safe_format_msg, ok_bind, exc_pure_eq_ok]

/-- The handler on an abandonment event with an invalid phone: the
`ok: false` response. -/
theorem webhook_invalid_phone {p : Json} {info : CanonRecord} {evRaw : Json} {ev : String}
    (send : String → String → Json)
    (hparse : parse_cartpanda_payload p = .ok info)
    (hev : p.dget "event" = .ok evRaw)
    (hlow : pyLower (pyOr evRaw (pyOr info.event (.str ""))) = .ok ev)
    (hab : strContains ev "abandoned" = true)
    (hph : normalize_phone info.phone = none) :
    cartpanda_webhook p send = .ok (invalidPhoneJson info.order_id) := by
  unfold cartpanda_webhook
  rw [hparse]
  simp only [ok_bind]
  rw [hev]
  simp only [ok_bind]
  rw [hlow]
  simp only [ok_bind]
  rw [if_neg (show ¬((!strContains ev "abandoned" && !strContains ev "checkout.abandoned") = true) by
    rw [hab]; simp)]
  rw [hph]
  rfl

/-- The spec scenario-1 payload. -/
def s1payload : Json := .obj
  [("event", .str "checkout.abandoned"),
   ("data", .obj
     [("id", .str "A1"),
      ("customer", .obj [("full_name", .str "Maria Silva"), ("phone", .str "11 98888-7777")]),
      ("cart_line_items", .arr [.obj [("variant", .obj [("title", .str "Curso X"), ("price", .num ⟨97, 1⟩)])]]),
      ("cart_url", .str "https://x.co/c1")])]

/-- The spec scenario-3 payload. -/
def s3payload : Json := .obj [("event", .str "order.paid"), ("order", .obj [("id", .str "B2")])]

/-! ### Claim theorems

One theorem per claim of the specification audit, with witnesses at
concrete inputs for the theorems that carry hypotheses and
counterexamples where the claim as stated fails on the code. -/

/-- Claim C1 (counterexample): on the scenario-1 payload the price field
is not `R$ 97,00` — `_price_from_item_or_totals` reads only item-level
price keys and the cart totals, never `variant.price`, and all of those
are absent, so `currency_brl(None)` yields the default. -/
theorem claim_C1_counterexample :
    (parse_cartpanda_payload s1payload).map (fun r => r.price) ≠ .ok "R$ 97,00" := by
  intro h
  have h2 : (Except.ok "R$ 0,00" : Except String String) = .ok "R$ 97,00" := h
  simp at h2

/-- Claim C1 (amended): on the scenario-1 payload, extraction plus phone
normalization yields normalized phone `5511988887777`, product `Curso X`,
and price `R$ 0,00` (not `R$ 97,00`: the price under `variant` is never
consulted). -/
theorem claim_C1 :
    (parse_cartpanda_payload s1payload).map
        (fun r => (normalize_phone r.phone, r.product, r.price)) =
      .ok (some "5511988887777", Json.str "Curso X", "R$ 0,00") := rfl

/-- Claim C2 (counterexample): the extractor can raise.  On the
JSON-object payload `{"data": "x"}` the truthy non-dict under `"data"`
makes `data.get("customer")` raise `AttributeError`, which would
propagate to the HTTP layer. -/
theorem claim_C2_counterexample :
    (parse_cartpanda_payload (.obj [("data", .str "x")])).isOk = false := rfl

/-- Claim C2 (amended): for every well-shaped JSON-object payload — the
values read as dicts are dicts or falsy, the line-items value and its
first element are a list/dict or falsy, title candidates are strings or
falsy, and the resolved name splits when a first name is needed —
`parse_cartpanda_payload` returns a canonical record without raising. -/
theorem claim_C2 (p : Json) (h : wellShaped p = true) :
    (parse_cartpanda_payload p).isOk = true := by
  obtain ⟨r, hr⟩ := parse_cartpanda_ok h
  rw [hr]
  rfl

theorem claim_C2_witness : (parse_cartpanda_payload s1payload).isOk = true :=
  claim_C2 s1payload rfl

/-- Claim C3 (counterexample): not every field of the canonical record is
non-null: on the empty payload `{}` both `order_id` and `phone` are
`None` (`data.get("id")` / `cust.get("phone")` with no default). -/
theorem claim_C3_counterexample :
    (parse_cartpanda_payload (.obj [])).map (fun r => (r.order_id, r.phone)) =
      .ok (Json.null, Json.null) := rfl

/-- Claim C3 (amended): whenever extraction returns, every field except
`order_id` and `phone` is a defined non-null value (`event`, `name`,
`first_name`, `product`, `checkout_url`, `cart_url` are non-null, and
`price` is a string by construction); `order_id` and `phone` are copied
verbatim and are null when missing from the source payload. -/
theorem claim_C3 (p : Json) (r : CanonRecord) (h : parse_cartpanda_payload p = .ok r) :
    r.event ≠ .null ∧ r.name ≠ .null ∧ r.first_name ≠ .null ∧ r.product ≠ .null ∧
      r.checkout_url ≠ .null ∧ r.cart_url ≠ .null :=
  parse_cartpanda_fields h

/-- The record extracted from the empty payload. -/
def emptyRec : CanonRecord :=
  { order_id := .null, event := .str "order.updated", name := .str "cliente",
    first_name := .str "cliente", phone := .null, product := .str "Seu produto",
    price := "R$ 0,00", checkout_url := .str "", cart_url := .str "" }

theorem claim_C3_witness :
    emptyRec.event ≠ .null ∧ emptyRec.name ≠ .null ∧ emptyRec.first_name ≠ .null ∧
      emptyRec.product ≠ .null ∧ emptyRec.checkout_url ≠ .null ∧ emptyRec.cart_url ≠ .null :=
  claim_C3 (.obj []) emptyRec rfl

/-- Claim C4 (counterexample): a string with fewer than 10 digits is not
always rejected: `"55"` strips to two digits yet is accepted as-is
because it already starts with the country prefix. -/
theorem claim_C4_counterexample :
    normalize_phone (.str "55") ≠ none ∧ ("55".data.filter Char.isDigit).length < 10 := by decide

/-- Claim C4 (amended): every input string with fewer than 10 digits
after stripping non-digits is rejected, unless the stripped digit string
already starts with `55`, in which case it is accepted as-is. -/
theorem claim_C4 (s : String) (hshort : (s.data.filter Char.isDigit).length < 10)
    (h55 : startsWith55 (s.data.filter Char.isDigit) = false) :
    normalize_phone (.str s) = none := by
  unfold normalize_phone
  by_cases ht : Json.truthy (.str s) = true
  · rw [if_neg (by simp [ht])]
    simp only [pyStr]
    by_cases he : (s.data.filter Char.isDigit).isEmpty = true
    · rw [if_pos he]
    · rw [if_neg he]
      rw [if_neg (by simp [h55])]
      rw [if_neg (by omega)]
  · have ht2 : Json.truthy (.str s) = false := by simpa using ht
    rw [if_pos (by rw [ht2]; rfl)]

theorem claim_C4_witness :
    ("12 3".data.filter Char.isDigit).length < 10 ∧ normalize_phone (.str "12 3") = none :=
  ⟨by decide, claim_C4 "12 3" (by decide) (by decide)⟩

/-- Claim C9: every all-digit string of length at least 10 that does not
start with `55` is accepted with `55` prepended. -/
theorem claim_C9 (s : String) (hdig : ∀ c ∈ s.data, c.isDigit = true)
    (hlen : 10 ≤ s.length) (h55 : startsWith55 s.data = false) :
    normalize_phone (.str s) = some ("55" ++ s) := by
  have hfilter : s.data.filter Char.isDigit = s.data := List.filter_eq_self.mpr hdig
  have hneL : s.data ≠ [] := by
    intro h0
    have hz : s.length = 0 := by rw [show s.length = s.data.length from rfl, h0]; rfl
    omega
  have hsne : s ≠ "" := by
    intro h0
    apply hneL
    rw [h0]
  unfold normalize_phone
  rw [if_neg (show ¬((!Json.truthy (.str s)) = true) by simp [Json.truthy, hsne])]
  simp only [pyStr, hfilter]
  rw [if_neg (show ¬(s.data.isEmpty = true) by simp [hneL])]
  rw [if_neg (by simp [h55])]
  rw [if_pos (show 10 ≤ s.data.length from hlen)]

theorem claim_C9_witness : normalize_phone (.str "1131234567") = some ("55" ++ "1131234567") :=
  claim_C9 "1131234567" (by decide) (by decide) (by decide)

/-- Claim C7: the currency formatter is total: when `float(value)` fails
(`pyFloat` is `none`) the result is exactly `R$ 0,00`, and when the value
is numeric the result is the Brazilian rendering of that number. -/
theorem claim_C7 (v : Json) :
    (pyFloat v = none → currency_brl v = "R$ 0,00") ∧
      ∀ q, pyFloat v = some q → currency_brl v = brlFromRat q := by
  constructor
  · intro h
    unfold currency_brl
    rw [h]
  · intro q h
    unfold currency_brl
    rw [h]

theorem claim_C7_witness :
    currency_brl .null = "R$ 0,00" ∧ currency_brl (.num ⟨123456, 100⟩) = "R$ 1.234,56" :=
  ⟨(claim_C7 .null).1 rfl, by
    have h := (claim_C7 (.num ⟨123456, 100⟩)).2 ⟨123456, 100⟩ rfl
    rw [h]
    decide⟩

/-- Claim C6 (counterexample): rendering is not total in the template: a
template consisting of a single opening brace raises `ValueError` in
CPython and errors here, whatever the mapping. -/
theorem claim_C6_counterexample :
    (safe_format (some "\x7b") (fun _ => none)).isOk = false := rfl

/-- Claim C6 (amended): for every template made of literal text, doubled
brace escapes and simple named placeholders, rendering never fails for
any mapping, and every placeholder missing from the mapping substitutes
to the empty string. -/
theorem claim_C6 (ts : List Tok) (m : String → Option String) (hv : ∀ t ∈ ts, t.valid = true) :
    safe_format (some (String.mk (renderToks ts))) m = .ok (substToks m ts) :=
  formatMapF_toks m ts _ hv (Nat.lt_succ_self _)

theorem claim_C6_witness :
    safe_format (some (String.mk (renderToks [Tok.ph "nome", Tok.lit '!']))) (fun _ => none) =
      .ok (substToks (fun _ => none) [Tok.ph "nome", Tok.lit '!']) :=
  claim_C6 [Tok.ph "nome", Tok.lit '!'] (fun _ => none) (by decide)

/-- Claim C5: the auto-probing client.  With a configured token, (a) if
every candidate yields an inconclusive outcome (404/405 response or a
transport error), the rendering of the last candidate and its outcome is
returned; (b) the first candidate whose response status is anything else
ends the probe immediately with that response. -/
theorem claim_C5 (token phone message : String) (oracle : Attempt → PostResult)
    (htok : token ≠ "") :
    ((∀ init alast, _candidate_requests token phone message = init ++ [alast] →
        (∀ x ∈ init ++ [alast], inconclusiveB (oracle x) = true) →
        uazapi_send_text token phone message oracle = inconclusiveJson alast (oracle alast)) ∧
     (∀ pre a post st text, _candidate_requests token phone message = pre ++ a :: post →
        (∀ x ∈ pre, inconclusiveB (oracle x) = true) →
        oracle a = .resp st text → (st = 404 || st = 405) = false →
        uazapi_send_text token phone message oracle = conclusiveJson a st text)) := by
  constructor
  · intro init alast hdec hinc
    unfold uazapi_send_text
    rw [if_neg htok, hdec]
    exact probeLoop_inconclusive_all oracle alast init none hinc
  · intro pre a post st text hdec hinc ho hst
    unfold uazapi_send_text
    rw [if_neg htok, hdec]
    exact probeLoop_first_conclusive oracle a st text post ho hst pre none hinc

/-- The last of the 96 candidates for token `t`, phone `p`, message `m`. -/
def lastAttempt : Attempt :=
  ⟨"/api/message/send", [("Token", "t"), ("Content-Type", "application/json")], [("to", "p"), ("message", "m")]⟩

/-- The first of the 96 candidates for token `t`, phone `p`, message `m`. -/
def firstAttempt : Attempt :=
  ⟨"/message/sendText", [("Authorization", "Bearer t"), ("Content-Type", "application/json")], [("number", "p"), ("text", "m")]⟩

theorem claim_C5_witness :
    (uazapi_send_text "t" "p" "m" (fun _ => .resp 404 "nf") =
        inconclusiveJson lastAttempt (.resp 404 "nf")) ∧
      (uazapi_send_text "t" "p" "m" (fun _ => .resp 200 "yes") =
        conclusiveJson firstAttempt 200 "yes") := by
  constructor
  · exact (claim_C5 "t" "p" "m" (fun _ => .resp 404 "nf") (by decide)).1
      (_candidate_requests "t" "p" "m").dropLast lastAttempt rfl (fun x _ => rfl)
  · exact (claim_C5 "t" "p" "m" (fun _ => .resp 200 "yes") (by decide)).2
      [] firstAttempt (_candidate_requests "t" "p" "m").tail 200 "yes" rfl
      (fun x hx => absurd hx (List.not_mem_nil x)) rfl rfl

/-- Claim C8: whenever the resolved lowered event string does not contain
`abandoned`, the handler answers the ignored response
`{"ok": true, "action": "ignored", "event": ev, "order_id": id}` without
invoking the delivery function. -/
theorem claim_C8 {p : Json} {info : CanonRecord} {evRaw : Json} {ev : String}
    (send : String → String → Json)
    (hparse : parse_cartpanda_payload p = .ok info)
    (hev : p.dget "event" = .ok evRaw)
    (hlow : pyLower (pyOr evRaw (pyOr info.event (.str ""))) = .ok ev)
    (hno : strContains ev "abandoned" = false) :
    cartpanda_webhook p send = .ok (ignoredJson ev info.order_id) :=
  webhook_ignored send hparse hev hlow hno

/-- The record extracted from the scenario-3 payload. -/
def s3rec : CanonRecord :=
  { order_id := .str "B2", event := .str "order.paid", name := .str "cliente",
    first_name := .str "cliente", phone := .null, product := .str "Seu produto",
    price := "R$ 0,00", checkout_url := .str "", cart_url := .str "" }

theorem claim_C8_witness :
    cartpanda_webhook s3payload (fun _ _ => .null) = .ok (ignoredJson "order.paid" (.str "B2")) :=
  @claim_C8 s3payload s3rec (.str "order.paid") "order.paid" (fun _ _ => .null) rfl rfl rfl rfl

/-- Claim C10: whenever the handler reaches the dispatch step (an
abandonment event and a valid phone), the response is `ok: true` with
action `whatsapp_attempted`, whatever the delivery function returns — the
delivery outcome appears only inside the nested `result` field. -/
theorem claim_C10 {p : Json} {info : CanonRecord} {evRaw : Json} {ev pn : String}
    (send : String → String → Json)
    (hparse : parse_cartpanda_payload p = .ok info)
    (hev : p.dget "event" = .ok evRaw)
    (hlow : pyLower (pyOr evRaw (pyOr info.event (.str ""))) = .ok ev)
    (hab : strContains ev "abandoned" = true)
    (hph : normalize_phone info.phone = some pn) :
    cartpanda_webhook p send =
      .ok (attemptedJson info.order_id (send pn (substToks (webhookData info) msgToks))) :=
  webhook_attempted send hparse hev hlow hab hph

/-- The record extracted from the scenario-1 payload. -/
def s1rec : CanonRecord :=
  { order_id := .str "A1", event := .str "checkout.abandoned", name := .str "Maria Silva",
    first_name := .str "Maria", phone := .str "11 98888-7777", product := .str "Curso X",
    price := "R$ 0,00", checkout_url := .str "https://x.co/c1", cart_url := .str "https://x.co/c1" }

/-- A delivery function that reports a failure in its structured result. -/
def failingSend : String → String → Json := fun _ _ =>
  .obj [("status", .str "error"), ("body", .str "boom")]

theorem claim_C10_witness :
    cartpanda_webhook s1payload failingSend =
      .ok (attemptedJson (.str "A1") (failingSend "5511988887777" (substToks (webhookData s1rec) msgToks))) :=
  @claim_C10 s1payload s1rec (.str "checkout.abandoned") "checkout.abandoned" "5511988887777"
    failingSend rfl rfl rfl rfl rfl

/-! ### Embedding checks

Concrete evaluations of the embedded functions, each cross-checked
against the behaviour of the Python source (CPython 3) on the same
input. -/

theorem check_currency_int : currency_brl (.num ⟨97, 1⟩) = "R$ 97,00" := by decide

theorem check_currency_grouping : currency_brl (.num ⟨123456, 100⟩) = "R$ 1.234,56" := by decide

theorem check_currency_none : currency_brl .null = "R$ 0,00" := rfl

theorem check_currency_strnum : currency_brl (.str "12.5") = "R$ 12,50" := by decide

theorem check_currency_exponent : currency_brl (.str "1e3") = "R$ 1.000,00" := by decide

theorem check_currency_badstr : currency_brl (.str "abc") = "R$ 0,00" := rfl

theorem check_currency_negative : currency_brl (.num ⟨-5, 4⟩) = "R$ -1,25" := by decide

theorem check_phone_formatting : normalize_phone (.str "11 98888-7777") = some "5511988887777" := by decide

theorem check_phone_empty : normalize_phone (.str "") = none := rfl

theorem check_format_plain : safe_format (some "a{x}b") (fun _ => none) = .ok "ab" := rfl

theorem check_format_escape : safe_format (some "{{x}}") (fun _ => none) = .ok "\x7bx\x7d" := rfl

theorem check_format_none_template : safe_format none (fun _ => none) = .ok "" := rfl

theorem check_format_positional_raises : (safe_format (some "{}") (fun _ => none)).isOk = false := rfl

theorem check_scenario1_fields :
    (parse_cartpanda_payload s1payload).map
        (fun r => (pyStr r.order_id, pyStr r.name, pyStr r.first_name, pyStr r.checkout_url)) =
      .ok ("A1", "Maria Silva", "Maria", "https://x.co/c1") := rfl

theorem check_scenario2_invalid_phone :
    cartpanda_webhook (.obj [("event", .str "checkout.abandoned"),
        ("data", .obj [("id", .str "A1"), ("customer", .obj [("phone", .null)])])])
      (fun _ _ => .null) = .ok (invalidPhoneJson (.str "A1")) := rfl

theorem check_missing_token :
    uazapi_send_text "" "p" "m" (fun _ => .resp 200 "yes") =
      .obj [("status", .str "error"), ("body", .str "missing_env:UAZAPI_TOKEN")] := rfl

theorem check_candidate_count : (_candidate_requests "t" "p" "m").length = 96 := rfl
